import Mathlib

/-!
Shallow embedding of the build-parameter resolution logic of
`infra/recipes/jiri.py` (the `RunSteps` recipe): source selection
(cq vs. periodic), validation asserts, target-triple decomposition,
ldflags construction, and the jiri step sequence.
-/

deriving instance DecidableEq for Except

namespace Jiri

/-- Model of Python `s.startswith(p)` at the character-list level:
`listIsPre p l` holds iff `p` is an initial segment of `l`. -/
def listIsPre : List Char → List Char → Bool
  | [], _ => true
  | _ :: _, [] => false
  | a :: as, b :: bs => a = b && listIsPre as bs

/-- Model of Python `s.startswith(p)`. -/
def pyStartswith (s p : String) : Bool :=
  listIsPre p.data s.data

/-- Model of Python `s.rstrip('/')`: remove all trailing `'/'` characters. -/
def pyRstripSlash (s : String) : String :=
  String.mk ((s.data.reverse.dropWhile (fun c => c = '/')).reverse)

/-- Model of Python `'%s' % x` on an optional string: `None` renders as
the literal text `"None"`. -/
def pyStr : Option String → String
  | none => "None"
  | some s => s

/-- Python truthiness of an optional string: `None` and `""` are falsy. -/
def pyTruthy : Option String → Bool
  | none => false
  | some s => if s = "" then false else true

/-- The distinct ways the recipe aborts before producing a build plan:
the two `assert`s on the source, the `AttributeError` from calling
`.startswith` on a `None` gerrit host, and the `ValueError` from
unpacking `target.split("-", 2)` into two variables. -/
inductive ResolveError where
  | missingGerritHost
  | insecureGerritHost
  | emptyRepoOrRef
  | insecureRepoUrl
  | badTargetTriple
  deriving DecidableEq, Repr

/-- The recipe's input properties (`PROPERTIES` in `jiri.py`): optional
strings default to `None`; `refspec` defaults to `"master"` at the
property layer, so it is always a string here. -/
structure TriggerContext where
  category : Option String
  gerritHost : Option String
  gerritProject : Option String
  gerritPatchRef : Option String
  repoUrl : Option String
  refspec : String
  manifest : String
  remote : String
  target : String
  deriving DecidableEq, Repr

/-- The repository URL and refspec in force after source selection and
validation. -/
structure ResolvedSource where
  repositoryUrl : String
  refspec : String
  deriving DecidableEq, Repr

/-- Source selection (`jiri.py` lines 42-46): on a cq run the URL is
derived from the gerrit host and project and the refspec is the gerrit
patch ref; otherwise the explicit `repository`/`refspec` properties are
kept.  Returns the pair of optional strings reaching the asserts. -/
def selectSource (ctx : TriggerContext) : Except ResolveError (Option String × Option String) :=
  if ctx.category = some "cq" then
    match ctx.gerritHost with
    | none => Except.error ResolveError.missingGerritHost
    | some host =>
      if pyStartswith host "https://" then
        Except.ok (some (pyRstripSlash host ++ "/" ++ pyStr ctx.gerritProject),
                   ctx.gerritPatchRef)
      else
        Except.error ResolveError.insecureGerritHost
  else
    Except.ok (ctx.repoUrl, some ctx.refspec)

/-- The two asserts of `jiri.py` lines 47-48:
`assert repo_url and refspec` then `assert repo_url.startswith('https://')`. -/
def validateSource : Option String × Option String → Except ResolveError ResolvedSource
  | (some ru, some rs) =>
    if ru = "" ∨ rs = "" then
      Except.error ResolveError.emptyRepoOrRef
    else if pyStartswith ru "https://" then
      Except.ok ⟨ru, rs⟩
    else
      Except.error ResolveError.insecureRepoUrl
  | (_, _) => Except.error ResolveError.emptyRepoOrRef

/-- Source resolution: selection followed by validation. -/
def resolveSource (ctx : TriggerContext) : Except ResolveError ResolvedSource :=
  (selectSource ctx).bind validateSource

/-- One step of Python `str.split(sep, ...)`: split off everything before
the first occurrence of `sep`, returning the remainder when `sep` occurs. -/
def splitOnceAux (sep : Char) : List Char → List Char → List Char × Option (List Char)
  | [], acc => (acc.reverse, none)
  | c :: cs, acc =>
    if c = sep then (acc.reverse, some cs) else splitOnceAux sep cs (c :: acc)

/-- Model of Python `s.split(sep, maxsplit)`: at most `maxsplit` splits
are performed, each at the leftmost remaining occurrence of `sep`. -/
def pySplit (sep : Char) : Nat → List Char → List (List Char)
  | 0, cs => [cs]
  | m + 1, cs =>
    match splitOnceAux sep cs [] with
    | (p, none) => [p]
    | (p, some rest) => p :: pySplit sep m rest

/-- `jiri.py` line 73: `goos, goarch = target.split("-", 2)` — the split
allows up to two separators, and the unpacking into two variables raises
`ValueError` unless the result has exactly two parts. -/
def resolveTarget (target : String) : Except ResolveError (String × String) :=
  match pySplit '-' 2 target.data with
  | [g, a] => Except.ok (String.mk g, String.mk a)
  | _ => Except.error ResolveError.badTargetTriple

/-- The resolved build plan. -/
structure BuildPlan where
  repositoryUrl : String
  refspec : String
  goos : String
  goarch : String
  deriving DecidableEq, Repr

/-- Substitute `%s` occurrences in a character list by the given strings,
left to right (model of Python `%`-formatting with string arguments). -/
def pySubstAux : List Char → List String → List Char
  | '%' :: 's' :: rest, a :: args => a.data ++ pySubstAux rest args
  | c :: rest, args => c :: pySubstAux rest args
  | [], _ => []

/-- The ldflags format string of `jiri.py` line 71, verbatim. -/
def ldflagsTemplate : String :=
  "-X \"fuchsia.googlesource.com/jiri/version.GitCommit=%s\" -X \"fuchsia.googlesource.com/jiri/version.BuildTime=%s\""

/-- `jiri.py` line 71: the ldflags string built from the git commit hash
and the build timestamp by `%`-formatting the template. -/
def mkLdflags (gitCommit buildTime : String) : String :=
  String.mk (pySubstAux ldflagsTemplate.data [gitCommit, buildTime])

/-- The full resolution: source selection and validation plus target
decomposition. -/
def resolve (ctx : TriggerContext) : Except ResolveError BuildPlan :=
  match resolveSource ctx with
  | Except.error e => Except.error e
  | Except.ok src =>
    match resolveTarget ctx.target with
    | Except.error e => Except.error e
    | Except.ok (goos, goarch) =>
      Except.ok ⟨src.repositoryUrl, src.refspec, goos, goarch⟩

/-- The calls made into the jiri module by `RunSteps` (lines 53-58). -/
inductive JiriStep where
  | init
  | cleanProject
  | importManifest (manifest remote : String) (overwrite : Bool)
  | update (gc : Bool)
  | patch (r host : Option String) (delete force : Bool)
  deriving DecidableEq, Repr

/-- The jiri step sequence of `RunSteps`: init, clean, import, update,
and — only when `category == 'cq'` — the patch step. -/
def jiriStepList (ctx : TriggerContext) : List JiriStep :=
  [JiriStep.init, JiriStep.cleanProject,
   JiriStep.importManifest ctx.manifest ctx.remote true,
   JiriStep.update true] ++
  (if ctx.category = some "cq" then
    [JiriStep.patch ctx.gerritPatchRef ctx.gerritHost true true]
   else [])

/-- The jiri steps actually executed: the asserts on the source run
first, so no step runs when source resolution fails. -/
def runStepsTrace (ctx : TriggerContext) : Except ResolveError (List JiriStep) :=
  (resolveSource ctx).map (fun _ => jiriStepList ctx)

/-- Whether a step is the patch-apply step. -/
def stepIsPatch : JiriStep → Bool
  | JiriStep.patch _ _ _ _ => true
  | _ => false

theorem data_append (a b : String) : (a ++ b).data = a.data ++ b.data := rfl

theorem ne_empty_of_data_ne_nil (s : String) (h : s.data ≠ []) : s ≠ "" :=
  fun hs => h (by rw [hs])

theorem listIsPre_append :
    ∀ (p a b : List Char), listIsPre p a = true → listIsPre p (a ++ b) = true
  | [], _, _, _ => rfl
  | _ :: _, [], _, h => by simp [listIsPre] at h
  | c :: p, d :: a, b, h => by
    simp only [listIsPre, Bool.and_eq_true, decide_eq_true_eq] at h
    simp only [List.cons_append, listIsPre, Bool.and_eq_true, decide_eq_true_eq]
    exact ⟨h.1, listIsPre_append p a b h.2⟩

theorem listIsPre_ne_nil (c : Char) (p l : List Char)
    (h : listIsPre (c :: p) l = true) : l ≠ [] := by
  intro hl
  rw [hl] at h
  simp [listIsPre] at h

theorem pyStartswith_https_ne_empty (s : String)
    (h : pyStartswith s "https://" = true) : s ≠ "" :=
  ne_empty_of_data_ne_nil s (listIsPre_ne_nil 'h' _ s.data h)

theorem pyStartswith_append (a b : String)
    (h : pyStartswith a "https://" = true) :
    pyStartswith (a ++ b) "https://" = true := by
  unfold pyStartswith at h ⊢
  rw [data_append]
  exact listIsPre_append _ a.data b.data h

theorem splitOnceAux_no_sep (sep : Char) :
    ∀ (cs acc : List Char), sep ∉ cs →
      splitOnceAux sep cs acc = (acc.reverse ++ cs, none)
  | [], acc, _ => by simp [splitOnceAux]
  | c :: cs, acc, h => by
    have hc : ¬ c = sep := fun hcs => h (by rw [hcs]; exact List.mem_cons_self sep cs)
    simp only [splitOnceAux, if_neg hc]
    rw [splitOnceAux_no_sep sep cs (c :: acc) (fun hm => h (List.mem_cons_of_mem c hm))]
    simp

theorem splitOnceAux_first (sep : Char) :
    ∀ (p rest acc : List Char), sep ∉ p →
      splitOnceAux sep (p ++ sep :: rest) acc = (acc.reverse ++ p, some rest)
  | [], rest, acc, _ => by simp [splitOnceAux]
  | c :: p, rest, acc, h => by
    have hc : ¬ c = sep := fun hcs => h (by rw [hcs]; exact List.mem_cons_self sep p)
    simp only [List.cons_append, splitOnceAux, if_neg hc]
    simp only [List.append_eq]
    rw [splitOnceAux_first sep p rest (c :: acc) (fun hm => h (List.mem_cons_of_mem c hm))]
    simp

theorem first_split (sep : Char) :
    ∀ cs : List Char, sep ∈ cs → ∃ p rest, cs = p ++ sep :: rest ∧ sep ∉ p
  | [], h => absurd h (List.not_mem_nil sep)
  | c :: cs, h => by
    by_cases hc : c = sep
    · exact ⟨[], cs, by rw [hc]; rfl, List.not_mem_nil sep⟩
    · have hmem : sep ∈ cs := by
        rcases List.mem_cons.mp h with h1 | h2
        · exact absurd h1.symm hc
        · exact h2
      rcases first_split sep cs hmem with ⟨p, rest, heq, hp⟩
      refine ⟨c :: p, rest, by rw [heq]; rfl, ?_⟩
      intro hm
      rcases List.mem_cons.mp hm with h1 | h2
      · exact hc h1.symm
      · exact hp h2

theorem pySplit_no_sep (sep : Char) (m : Nat) (cs : List Char) (h : sep ∉ cs) :
    pySplit sep (m + 1) cs = [cs] := by
  simp only [pySplit]
  rw [splitOnceAux_no_sep sep cs [] h]
  simp

theorem pySplit_with_sep (sep : Char) (m : Nat) (p rest : List Char) (hp : sep ∉ p) :
    pySplit sep (m + 1) (p ++ sep :: rest) = p :: pySplit sep m rest := by
  simp only [pySplit]
  rw [splitOnceAux_first sep p rest [] hp]
  simp

theorem pySplit_length (sep : Char) :
    ∀ (m : Nat) (cs : List Char),
      (pySplit sep m cs).length = min (cs.count sep) m + 1
  | 0, cs => by simp [pySplit]
  | m + 1, cs => by
    by_cases h : sep ∈ cs
    · rcases first_split sep cs h with ⟨p, rest, rfl, hp⟩
      rw [pySplit_with_sep sep m p rest hp]
      have hcount : (p ++ sep :: rest).count sep = rest.count sep + 1 := by
        rw [List.count_append, List.count_cons_self, List.count_eq_zero.mpr hp]
        omega
      rw [hcount, List.length_cons, pySplit_length sep m rest]
      omega
    · rw [pySplit_no_sep sep m cs h, List.count_eq_zero.mpr h]
      simp

theorem pySplit_two_parts (sep : Char) (p rest : List Char)
    (hp : sep ∉ p) (hr : sep ∉ rest) :
    pySplit sep 2 (p ++ sep :: rest) = [p, rest] := by
  have h2 : (2 : Nat) = 1 + 1 := rfl
  have h1 : (1 : Nat) = 0 + 1 := rfl
  rw [h2, pySplit_with_sep sep 1 p rest hp, h1, pySplit_no_sep sep 0 rest hr]

theorem resolveTarget_ok (g a : String) (hg : '-' ∉ g.data) (ha : '-' ∉ a.data) :
    resolveTarget (g ++ "-" ++ a) = Except.ok (g, a) := by
  unfold resolveTarget
  have hdata : (g ++ "-" ++ a).data = g.data ++ '-' :: a.data := by
    rw [data_append, data_append]
    simp
  rw [hdata, pySplit_two_parts '-' g.data a.data hg ha]

/-- C1 (counterexample): the claim says a target triple containing more
than one `"-"` is split at the first separator and succeeds, and that
resolution fails only when there is no `"-"` at all; but on
`"linux-amd64-v2"`, which does contain `"-"`, `target.split("-", 2)`
yields three parts and the two-variable unpacking fails. -/
theorem targetTriple_split_counterexample :
    '-' ∈ "linux-amd64-v2".data ∧
    resolveTarget "linux-amd64-v2" = Except.error ResolveError.badTargetTriple :=
  ⟨by decide, by decide⟩

/-- C1 (amended): resolution splits `targetTriple` at its `"-"` separator
into GOOS (the part before it) and GOARCH (the part after it), and it
succeeds if and only if the triple contains exactly one `"-"`; it fails
both when the triple contains no `"-"` and when it contains more than
one (the split allows up to two separators and a three-part result
cannot be unpacked into the two variables). -/
theorem targetTriple_split_characterization :
    (∀ g a : String, '-' ∉ g.data → '-' ∉ a.data →
        resolveTarget (g ++ "-" ++ a) = Except.ok (g, a)) ∧
    (∀ t : String, (∃ q, resolveTarget t = Except.ok q) ↔ t.data.count '-' = 1) := by
  refine ⟨resolveTarget_ok, fun t => ⟨?_, ?_⟩⟩
  · rintro ⟨q, hq⟩
    have hlen := pySplit_length '-' 2 t.data
    unfold resolveTarget at hq
    rcases hsp : pySplit '-' 2 t.data with _ | ⟨x, _ | ⟨y, _ | ⟨z, zs⟩⟩⟩ <;>
      rw [hsp] at hq hlen
    · simp at hq
    · simp at hq
    · simp only [List.length_cons, List.length_nil] at hlen
      omega
    · simp at hq
  · intro hcount
    have hlen := pySplit_length '-' 2 t.data
    rw [hcount] at hlen
    have h2 : (pySplit '-' 2 t.data).length = 2 := by rw [hlen]; omega
    rcases List.length_eq_two.mp h2 with ⟨x, y, hxy⟩
    refine ⟨(String.mk x, String.mk y), ?_⟩
    unfold resolveTarget
    rw [hxy]

/-- C1 (witness): the amended theorem applied at GOOS `"linux"`,
GOARCH `"amd64"`. -/
theorem targetTriple_split_witness :
    resolveTarget ("linux" ++ "-" ++ "amd64") = Except.ok ("linux", "amd64") :=
  targetTriple_split_characterization.1 "linux" "amd64" (by decide) (by decide)

/-- Whether resolution aborted with an error. -/
def fails {α : Type} (e : Except ResolveError α) : Bool :=
  match e with
  | Except.error _ => true
  | Except.ok _ => false

theorem pyTruthy_false (s : String) (h : pyTruthy (some s) = false) : s = "" := by
  by_contra hne
  simp [pyTruthy, hne] at h

theorem selectSource_cq (ctx : TriggerContext) (host : String)
    (hcat : ctx.category = some "cq") (hhost : ctx.gerritHost = some host)
    (hsec : pyStartswith host "https://" = true) :
    selectSource ctx = Except.ok
      (some (pyRstripSlash host ++ "/" ++ pyStr ctx.gerritProject),
       ctx.gerritPatchRef) := by
  unfold selectSource
  rw [hcat, hhost]
  simp [hsec]

theorem selectSource_noncq (ctx : TriggerContext)
    (hcat : ¬ ctx.category = some "cq") :
    selectSource ctx = Except.ok (ctx.repoUrl, some ctx.refspec) := by
  unfold selectSource
  rw [if_neg hcat]

/-- C3: for every context whose category is not `"cq"`, with a non-empty
repositoryUrl starting with `"https://"` and a non-empty refspec (the
refspec property defaults to `"master"` and so is always a string here),
resolution passes both through unchanged. -/
theorem noncq_passthrough (ctx : TriggerContext) (u : String)
    (hcat : ¬ ctx.category = some "cq")
    (hu : ctx.repoUrl = some u)
    (hne : u ≠ "")
    (hsec : pyStartswith u "https://" = true)
    (hrs : ctx.refspec ≠ "") :
    resolveSource ctx = Except.ok ⟨u, ctx.refspec⟩ := by
  unfold resolveSource
  rw [selectSource_noncq ctx hcat, hu]
  show validateSource (some u, some ctx.refspec) = Except.ok ⟨u, ctx.refspec⟩
  simp [validateSource, hne, hrs, hsec]

/-- C3 (witness): the periodic/CI scenario with the explicit repository
URL and the default refspec. -/
theorem noncq_passthrough_witness :
    resolveSource (TriggerContext.mk none none none none
        (some "https://fuchsia.googlesource.com/jiri") "master" "jiri"
        "https://fuchsia.googlesource.com/manifest" "linux-amd64") =
      Except.ok ⟨"https://fuchsia.googlesource.com/jiri", "master"⟩ :=
  noncq_passthrough _ _ (by decide) rfl (by decide) (by decide) (by decide)

/-- C2 (counterexample): the claim fails at two contexts it covers.
With gerrit host `"https://"` (which does start with `"https://"`) the
derived URL is `"https:/jiri"` and the later secure-scheme assert
aborts resolution instead of producing that URL; and with an empty (but
present) gerritPatchRef the emptiness assert aborts resolution. -/
theorem cq_derivation_counterexample :
    (pyStartswith "https://" "https://" = true ∧
      resolveSource (TriggerContext.mk (some "cq") (some "https://") (some "jiri")
          (some "refs/changes/12/1234/3") none "master" "jiri"
          "https://fuchsia.googlesource.com/manifest" "linux-amd64") =
        Except.error ResolveError.insecureRepoUrl) ∧
    resolveSource (TriggerContext.mk (some "cq")
        (some "https://fuchsia-review.googlesource.com") (some "jiri")
        (some "") none "master" "jiri"
        "https://fuchsia.googlesource.com/manifest" "linux-amd64") =
      Except.error ResolveError.emptyRepoOrRef :=
  ⟨⟨by decide, by decide⟩, by decide⟩

/-- C2 (amended): for every context with category `"cq"`, a gerritHost
that starts with `"https://"` and still starts with `"https://"` after
its trailing slashes are stripped, a given gerritProject and a given
non-empty gerritPatchRef, resolution produces repositoryUrl equal to
the gerritHost with trailing slashes stripped, followed by `"/"` and
the gerritProject, and refspec equal to the gerritPatchRef. -/
theorem cq_derivation (ctx : TriggerContext) (host p r : String)
    (hcat : ctx.category = some "cq")
    (hhost : ctx.gerritHost = some host)
    (hsec : pyStartswith host "https://" = true)
    (hstrip : pyStartswith (pyRstripSlash host) "https://" = true)
    (hproj : ctx.gerritProject = some p)
    (hpr : ctx.gerritPatchRef = some r)
    (hr : r ≠ "") :
    resolveSource ctx = Except.ok ⟨pyRstripSlash host ++ "/" ++ p, r⟩ := by
  unfold resolveSource
  rw [selectSource_cq ctx host hcat hhost hsec, hproj, hpr]
  have hu : pyStartswith (pyRstripSlash host ++ "/" ++ p) "https://" = true :=
    pyStartswith_append _ p (pyStartswith_append _ "/" hstrip)
  have hune : pyRstripSlash host ++ "/" ++ p ≠ "" :=
    pyStartswith_https_ne_empty _ hu
  show validateSource (some (pyRstripSlash host ++ "/" ++ pyStr (some p)), some r) =
    Except.ok ⟨pyRstripSlash host ++ "/" ++ p, r⟩
  simp only [pyStr]
  simp [validateSource, hune, hr, hu]

/-- C2 (witness): the amended theorem at the pending-change scenario of
the recipe's own tests. -/
theorem cq_derivation_witness :
    resolveSource (TriggerContext.mk (some "cq")
        (some "https://fuchsia-review.googlesource.com") (some "jiri")
        (some "refs/changes/12/1234/3") none "master" "jiri"
        "https://fuchsia.googlesource.com/manifest" "linux-amd64") =
      Except.ok ⟨"https://fuchsia-review.googlesource.com/jiri",
                 "refs/changes/12/1234/3"⟩ := by
  have h := cq_derivation (TriggerContext.mk (some "cq")
      (some "https://fuchsia-review.googlesource.com") (some "jiri")
      (some "refs/changes/12/1234/3") none "master" "jiri"
      "https://fuchsia.googlesource.com/manifest" "linux-amd64")
    "https://fuchsia-review.googlesource.com" "jiri" "refs/changes/12/1234/3"
    rfl rfl (by decide) (by decide) rfl rfl (by decide)
  exact h

/-- C4: resolution fails with the configuration error of the emptiness
assert whenever the pair reaching the assert has a falsy (absent or
empty) repositoryUrl or refspec, whichever branch of source selection
produced it; in particular it fails when category is not `"cq"` and the
explicit repositoryUrl is absent or empty or the refspec is empty. -/
theorem empty_source_validation :
    (∀ (ctx : TriggerContext) (ru rs : Option String),
        selectSource ctx = Except.ok (ru, rs) →
        pyTruthy ru = false ∨ pyTruthy rs = false →
        resolveSource ctx = Except.error ResolveError.emptyRepoOrRef) ∧
    (∀ ctx : TriggerContext, ¬ ctx.category = some "cq" →
        ctx.repoUrl = none ∨ ctx.repoUrl = some "" ∨ ctx.refspec = "" →
        resolveSource ctx = Except.error ResolveError.emptyRepoOrRef) := by
  constructor
  · intro ctx ru rs hsel hfalsy
    unfold resolveSource
    rw [hsel]
    rcases ru with _ | u
    · rfl
    · rcases rs with _ | s
      · rfl
      · have hemp : u = "" ∨ s = "" := hfalsy.imp (pyTruthy_false u) (pyTruthy_false s)
        show validateSource (some u, some s) = Except.error ResolveError.emptyRepoOrRef
        simp only [validateSource]
        rw [if_pos hemp]
  · intro ctx hcat hemp
    unfold resolveSource
    rw [selectSource_noncq ctx hcat]
    rcases hemp with h | h | h
    · rw [h]; rfl
    · rw [h]
      show validateSource (some "", some ctx.refspec) =
        Except.error ResolveError.emptyRepoOrRef
      simp [validateSource]
    · rcases hru : ctx.repoUrl with _ | u
      · rfl
      · show validateSource (some u, some ctx.refspec) =
          Except.error ResolveError.emptyRepoOrRef
        simp only [validateSource]
        rw [if_pos (Or.inr h)]

/-- C4 (witness): a periodic run with no repository URL given. -/
theorem empty_source_validation_witness :
    resolveSource (TriggerContext.mk none none none none none "master" "jiri"
        "https://fuchsia.googlesource.com/manifest" "linux-amd64") =
      Except.error ResolveError.emptyRepoOrRef :=
  empty_source_validation.2 _ (by decide) (Or.inl rfl)

/-- C5: resolution fails when the repositoryUrl in force does not start
with `"https://"`, in both branches: in the cq branch the assert on the
gerrit host aborts it, and in the non-cq branch an assert aborts it
when the explicit repositoryUrl does not start with `"https://"`. -/
theorem insecure_url_validation :
    (∀ (ctx : TriggerContext) (host : String),
        ctx.category = some "cq" → ctx.gerritHost = some host →
        pyStartswith host "https://" = false →
        resolveSource ctx = Except.error ResolveError.insecureGerritHost) ∧
    (∀ (ctx : TriggerContext) (u : String),
        ¬ ctx.category = some "cq" → ctx.repoUrl = some u →
        pyStartswith u "https://" = false →
        fails (resolveSource ctx) = true) := by
  constructor
  · intro ctx host hcat hhost hsec
    unfold resolveSource selectSource
    rw [hcat, hhost]
    simp [hsec, Except.bind]
  · intro ctx u hcat hu hsec
    unfold resolveSource
    rw [selectSource_noncq ctx hcat, hu]
    show fails (validateSource (some u, some ctx.refspec)) = true
    simp only [validateSource]
    by_cases hemp : u = "" ∨ ctx.refspec = ""
    · rw [if_pos hemp]; rfl
    · rw [if_neg hemp, hsec]
      rfl

/-- C5 (witness): an insecure gerrit host on a cq run and an insecure
explicit repository URL on a periodic run. -/
theorem insecure_url_validation_witness :
    (resolveSource (TriggerContext.mk (some "cq")
        (some "http://gerrit.example.com") (some "jiri")
        (some "refs/changes/1/2/3") none "master" "jiri"
        "https://fuchsia.googlesource.com/manifest" "linux-amd64") =
      Except.error ResolveError.insecureGerritHost) ∧
    fails (resolveSource (TriggerContext.mk none none none none
        (some "http://fuchsia.googlesource.com/jiri") "master" "jiri"
        "https://fuchsia.googlesource.com/manifest" "linux-amd64")) = true :=
  ⟨insecure_url_validation.1 _ _ rfl rfl (by decide),
   insecure_url_validation.2 _ _ (by decide) rfl (by decide)⟩

theorem validateSource_ok (ru rs : Option String) (src : ResolvedSource)
    (h : validateSource (ru, rs) = Except.ok src) :
    ru = some src.repositoryUrl ∧ rs = some src.refspec ∧
    src.repositoryUrl ≠ "" ∧ src.refspec ≠ "" ∧
    pyStartswith src.repositoryUrl "https://" = true := by
  rcases ru with _ | u
  · simp [validateSource] at h
  · rcases rs with _ | s
    · simp [validateSource] at h
    · simp only [validateSource] at h
      split at h
      · cases h
      · rename_i hemp
        split at h
        · rename_i hb
          cases h
          exact ⟨rfl, rfl, fun he => hemp (Or.inl he), fun he => hemp (Or.inr he), hb⟩
        · cases h

theorem resolveSource_ok_inv (ctx : TriggerContext) (src : ResolvedSource)
    (h : resolveSource ctx = Except.ok src) :
    ∃ ru rs, selectSource ctx = Except.ok (ru, rs) ∧
      validateSource (ru, rs) = Except.ok src := by
  unfold resolveSource at h
  rcases hsel : selectSource ctx with e | pr
  · rw [hsel] at h
    cases h
  · rcases pr with ⟨ru, rs⟩
    rw [hsel] at h
    exact ⟨ru, rs, rfl, h⟩

theorem selectSource_ok_inv (ctx : TriggerContext) (ru rs : Option String)
    (h : selectSource ctx = Except.ok (ru, rs)) :
    (if ctx.category = some "cq" then
      ∃ host, ctx.gerritHost = some host ∧ pyStartswith host "https://" = true ∧
        ru = some (pyRstripSlash host ++ "/" ++ pyStr ctx.gerritProject) ∧
        rs = ctx.gerritPatchRef
     else ru = ctx.repoUrl ∧ rs = some ctx.refspec) := by
  by_cases hcat : ctx.category = some "cq"
  · rw [if_pos hcat]
    rcases hh : ctx.gerritHost with _ | host
    · have hsel2 : selectSource ctx = Except.error ResolveError.missingGerritHost := by
        unfold selectSource
        rw [hcat, hh]
        simp
      rw [hsel2] at h
      cases h
    · by_cases hsec : pyStartswith host "https://" = true
      · have heq := (selectSource_cq ctx host hcat hh hsec).symm.trans h
        injection heq with h'
        injection h' with h1 h2
        exact ⟨host, rfl, hsec, h1.symm, h2.symm⟩
      · have hsel2 : selectSource ctx = Except.error ResolveError.insecureGerritHost := by
          unfold selectSource
          rw [hcat, hh]
          simp [hsec]
        rw [hsel2] at h
        cases h
  · rw [if_neg hcat]
    have heq := (selectSource_noncq ctx hcat).symm.trans h
    injection heq with h'
    injection h' with h1 h2
    exact ⟨h1.symm, h2.symm⟩

/-- C7: whenever source resolution succeeds, the chosen repositoryUrl is
non-empty and starts with `"https://"`, the chosen refspec is
non-empty, and exactly one of the two sources is in force: on a cq run
the pair is the Gerrit-derived URL and patch ref, otherwise it is the
explicit repositoryUrl and refspec. -/
theorem resolved_source_invariant (ctx : TriggerContext) (src : ResolvedSource)
    (h : resolveSource ctx = Except.ok src) :
    src.repositoryUrl ≠ "" ∧ src.refspec ≠ "" ∧
    pyStartswith src.repositoryUrl "https://" = true ∧
    (if ctx.category = some "cq" then
      ∃ host, ctx.gerritHost = some host ∧
        src.repositoryUrl = pyRstripSlash host ++ "/" ++ pyStr ctx.gerritProject ∧
        ctx.gerritPatchRef = some src.refspec
     else ctx.repoUrl = some src.repositoryUrl ∧ ctx.refspec = src.refspec) := by
  rcases resolveSource_ok_inv ctx src h with ⟨ru, rs, hsel, hval⟩
  rcases validateSource_ok ru rs src hval with ⟨hru, hrs, hne1, hne2, hsec⟩
  have hs := selectSource_ok_inv ctx ru rs hsel
  refine ⟨hne1, hne2, hsec, ?_⟩
  by_cases hcat : ctx.category = some "cq"
  · rw [if_pos hcat] at hs ⊢
    rcases hs with ⟨host, hh, _, hru2, hrs2⟩
    refine ⟨host, hh, ?_, ?_⟩
    · have := hru.symm.trans hru2
      injection this
    · rw [← hrs2, hrs]
  · rw [if_neg hcat] at hs ⊢
    rcases hs with ⟨hru2, hrs2⟩
    constructor
    · rw [← hru2, hru]
    · have := hrs.symm.trans hrs2
      injection this with h'
      exact h'.symm

/-- C7 (witness): the invariant applied on the periodic scenario. -/
theorem resolved_source_invariant_witness :
    pyStartswith "https://fuchsia.googlesource.com/jiri" "https://" = true :=
  (resolved_source_invariant (TriggerContext.mk none none none none
      (some "https://fuchsia.googlesource.com/jiri") "master" "jiri"
      "https://fuchsia.googlesource.com/manifest" "linux-amd64")
    ⟨"https://fuchsia.googlesource.com/jiri", "master"⟩ rfl).2.2.1

/-- C8: the patch-apply step runs only on pending-change verification
runs: on every invocation whose category is not `"cq"`, the executed
step sequence contains no patch step, even when a gerritPatchRef is
present in the context. -/
theorem patch_only_on_cq (ctx : TriggerContext) (steps : List JiriStep)
    (hcat : ¬ ctx.category = some "cq")
    (h : runStepsTrace ctx = Except.ok steps) :
    steps.any stepIsPatch = false := by
  unfold runStepsTrace at h
  rcases hsel : resolveSource ctx with e | src <;> rw [hsel] at h
  · cases h
  · have hsteps : steps = jiriStepList ctx := by
      injection h with h'
      exact h'.symm
    rw [hsteps]
    unfold jiriStepList
    rw [if_neg hcat]
    rfl

/-- C8 (witness): a periodic run that nevertheless carries a gerrit
patch ref executes no patch step. -/
theorem patch_only_on_cq_witness :
    ([JiriStep.init, JiriStep.cleanProject,
      JiriStep.importManifest "jiri" "https://fuchsia.googlesource.com/manifest" true,
      JiriStep.update true]).any stepIsPatch = false :=
  patch_only_on_cq (TriggerContext.mk none none none
      (some "refs/changes/12/1234/3")
      (some "https://fuchsia.googlesource.com/jiri") "master" "jiri"
      "https://fuchsia.googlesource.com/manifest" "linux-amd64") _
    (by decide) rfl

/-- C9: on cq runs the resolved source does not depend on the
caller-supplied repositoryUrl and refspec properties: two cq contexts
agreeing on gerritHost, gerritProject and gerritPatchRef resolve to the
same result whatever their repositoryUrl and refspec. -/
theorem cq_ignores_explicit_source (c1 c2 : TriggerContext)
    (h1 : c1.category = some "cq") (h2 : c2.category = some "cq")
    (hh : c1.gerritHost = c2.gerritHost)
    (hp : c1.gerritProject = c2.gerritProject)
    (hr : c1.gerritPatchRef = c2.gerritPatchRef) :
    resolveSource c1 = resolveSource c2 := by
  unfold resolveSource selectSource
  rw [h1, h2, hh, hp, hr]
  simp

/-- C9 (witness): two cq contexts differing only in the explicit
repositoryUrl and refspec resolve identically. -/
theorem cq_ignores_explicit_source_witness :
    resolveSource (TriggerContext.mk (some "cq")
        (some "https://fuchsia-review.googlesource.com") (some "jiri")
        (some "refs/changes/12/1234/3")
        (some "https://attacker.example.com/evil") "evil-ref" "jiri"
        "https://fuchsia.googlesource.com/manifest" "linux-amd64") =
      resolveSource (TriggerContext.mk (some "cq")
        (some "https://fuchsia-review.googlesource.com") (some "jiri")
        (some "refs/changes/12/1234/3") none "master" "jiri"
        "https://fuchsia.googlesource.com/manifest" "linux-amd64") :=
  cq_ignores_explicit_source _ _ rfl rfl rfl rfl rfl

/-- C10 (counterexample): the claim says the later `"https://"` check is
unreachable in the cq branch once the gerrit-host check has passed; but
for gerritHost `"https://"` the host check passes, stripping trailing
slashes leaves `"https:"`, the derived URL is `"https:/tools"`, and the
later check fails. -/
theorem cq_https_check_counterexample :
    (pyStartswith "https://" "https://" = true ∧
      pyRstripSlash "https://" = "https:") ∧
    resolveSource (TriggerContext.mk (some "cq") (some "https://") (some "tools")
        (some "refs/changes/1/2/3") none "master" "jiri"
        "https://fuchsia.googlesource.com/manifest" "linux-amd64") =
      Except.error ResolveError.insecureRepoUrl :=
  ⟨⟨by decide, by decide⟩, by decide⟩

/-- C10 (amended): in the cq branch the later secure-scheme check on the
derived repositoryUrl can fail, but only when stripping trailing
slashes from gerritHost destroys its `"https://"` prefix (a host that
is the bare scheme followed only by slashes); whenever the stripped
host still starts with `"https://"`, that error is unreachable. -/
theorem cq_https_check_unreachable (ctx : TriggerContext) (host : String)
    (hcat : ctx.category = some "cq")
    (hhost : ctx.gerritHost = some host)
    (hsec : pyStartswith host "https://" = true)
    (hstrip : pyStartswith (pyRstripSlash host) "https://" = true) :
    resolveSource ctx ≠ Except.error ResolveError.insecureRepoUrl := by
  unfold resolveSource
  rw [selectSource_cq ctx host hcat hhost hsec]
  have hu : pyStartswith (pyRstripSlash host ++ "/" ++ pyStr ctx.gerritProject)
      "https://" = true :=
    pyStartswith_append _ _ (pyStartswith_append _ "/" hstrip)
  intro h
  rcases hpr : ctx.gerritPatchRef with _ | r <;> rw [hpr] at h
  · exact absurd h (by simp [Except.bind, validateSource])
  · have h' : validateSource
        (some (pyRstripSlash host ++ "/" ++ pyStr ctx.gerritProject), some r) =
        Except.error ResolveError.insecureRepoUrl := h
    simp only [validateSource] at h'
    by_cases hemp : (pyRstripSlash host ++ "/" ++ pyStr ctx.gerritProject = "" ∨ r = "")
    · rw [if_pos hemp] at h'
      cases h'
    · rw [if_neg hemp, if_pos hu] at h'
      cases h'

/-- C10 (witness): the amended theorem on a host with a trailing slash. -/
theorem cq_https_check_unreachable_witness :
    resolveSource (TriggerContext.mk (some "cq")
        (some "https://fuchsia-review.googlesource.com/") (some "tools") none
        none "master" "jiri" "https://fuchsia.googlesource.com/manifest"
        "linux-amd64") ≠
      Except.error ResolveError.insecureRepoUrl :=
  cq_https_check_unreachable _ _ rfl rfl (by decide) (by decide)

/-- C6: the constructed ldflags string is byte-exactly the two linker
symbol overrides joined by one space, with the git commit hash and the
build timestamp substituted verbatim; in particular at hash `"abc123"`
and timestamp `"2016-10-11 14:40:25-07:00"` it is exactly that form. -/
theorem ldflags_exact :
    (∀ h t : String,
      mkLdflags h t =
        "-X \"fuchsia.googlesource.com/jiri/version.GitCommit=" ++
          (h ++ ("\" -X \"fuchsia.googlesource.com/jiri/version.BuildTime=" ++
            (t ++ "\"")))) ∧
    mkLdflags "abc123" "2016-10-11 14:40:25-07:00" =
      "-X \"fuchsia.googlesource.com/jiri/version.GitCommit=abc123\" -X \"fuchsia.googlesource.com/jiri/version.BuildTime=2016-10-11 14:40:25-07:00\"" :=
  ⟨fun h t => rfl, by decide⟩

end Jiri
